import Mathlib

/-
Verification of the synchronization primitives in src/kern/thread/synch.c:
semaphores (sem_create, sem_destroy, P, V), locks (lock_create, lock_destroy,
lock_acquire, lock_release, lock_do_i_hold) and condition variables
(cv_create, cv_destroy, cv_wait, cv_signal, cv_broadcast).

The embedding has four parts:
- the allocation / cleanup structure of the create and destroy functions;
- the owner-tracking lock state and a transition system for interleavings of
  lock_acquire / lock_release by any number of threads on one lock;
- a counting transition system for completed P / V operations on a semaphore,
  and the P while-loop as a function of the observed count values;
- event traces of the functions, recording assertion order, spinlock usage
  and sleep points.
-/

namespace Synch

/-- Thread identities. curthread in the source is a pointer to the calling
thread's structure; distinct threads have distinct pointers, so we model
thread identities as natural numbers. -/
abbrev Tid := Nat

/-- The three sub-resources a create function allocates: the object itself
(kmalloc), the duplicated name string (kstrdup) and the wait channel
(wchan_create). -/
inductive Res where
  | obj
  | name
  | wchan
deriving DecidableEq

/-- Outcome of a create call: whether it returned a non-NULL object, which
sub-resources were successfully allocated during the call, and which were
actually released by kfree / cleanup before the call returned. -/
structure CreateOutcome where
  result : Bool
  allocated : List Res
  freed : List Res

/-- sem_create (synch.c lines 47-74), parameterized by which of the three
allocations succeed. On kstrdup failure it kfrees the semaphore (line 59); on
wchan_create failure it kfrees the name and then the semaphore (lines 65-66). -/
def sem_create (obj_ok name_ok wchan_ok : Bool) : CreateOutcome :=
  if obj_ok = false then ⟨false, [], []⟩
  else if name_ok = false then ⟨false, [Res.obj], [Res.obj]⟩
  else if wchan_ok = false then ⟨false, [Res.obj, Res.name], [Res.name, Res.obj]⟩
  else ⟨true, [Res.obj, Res.name, Res.wchan], []⟩

/-- lock_create (synch.c lines 141-173). On wchan_create failure (line 160)
the code calls kfree on lock->lock_wchan (line 161) — the pointer it just
tested to be NULL, so nothing is released by that call — and then kfrees the
lock structure (line 162). The kstrdup result lk_name is not freed on this
path. -/
def lock_create (obj_ok name_ok wchan_ok : Bool) : CreateOutcome :=
  if obj_ok = false then ⟨false, [], []⟩
  else if name_ok = false then ⟨false, [Res.obj], [Res.obj]⟩
  else if wchan_ok = false then ⟨false, [Res.obj, Res.name], [Res.obj]⟩
  else ⟨true, [Res.obj, Res.name, Res.wchan], []⟩

/-- cv_create (synch.c lines 255-281): same cleanup discipline as sem_create
(lines 273-274 free the name and the object when wchan_create fails). -/
def cv_create (obj_ok name_ok wchan_ok : Bool) : CreateOutcome :=
  if obj_ok = false then ⟨false, [], []⟩
  else if name_ok = false then ⟨false, [Res.obj], [Res.obj]⟩
  else if wchan_ok = false then ⟨false, [Res.obj, Res.name], [Res.name, Res.obj]⟩
  else ⟨true, [Res.obj, Res.name, Res.wchan], []⟩

/-- A failed create leaks nothing: either the call succeeded, or the freed
list holds exactly the sub-resources that had been allocated. -/
def noLeakOnFailure (c : CreateOutcome) : Bool :=
  c.result ||
    (c.allocated.all (fun r => c.freed.contains r) &&
      c.freed.all (fun r => c.allocated.contains r))

/-- The owner-tracking fields of struct lock: free (initialized on synch.c
line 168) and curr_user (line 170). curr_user = none models the NULL thread
pointer. -/
structure LockSt where
  free : Bool
  curr_user : Option Tid

/-- lock_do_i_hold (synch.c lines 233-248): false when the lock is free, true
when the lock is held and curr_user is the calling thread, false otherwise. -/
def lock_do_i_hold (lk : LockSt) (curthread : Tid) : Bool :=
  if lk.free = true then false
  else if lk.curr_user = some curthread then true
  else false

/-- The lock state lock_create establishes (synch.c lines 168-170):
free = true, curr_user = NULL. -/
def lock_create_state : LockSt := { free := true, curr_user := none }

/-- Effect of wchan_wakeone on the set of sleepers of a wait channel: at most
the one designated thread w is woken; every other thread's sleep state is
unchanged. -/
def wchan_wakeone (asleep : Tid → Bool) (w : Option Tid) : Tid → Bool :=
  fun v => if w = some v then false else asleep v

/-- Outcome of a lock_release call: fatal KASSERT failure, or a new lock
state together with the number of wchan_wakeone calls made. -/
inductive RelOutcome where
  | fatal
  | ok (lk : LockSt) (wakeoneCalls : Nat)

/-- lock_release (synch.c lines 218-231). KASSERT(lock_do_i_hold(lock)) at
line 224 halts execution when the caller does not hold the lock. Otherwise,
under the guard spinlock (lines 225, 229), curr_user := NULL and free := true
(lines 226-227) and wchan_wakeone is called once (line 228). -/
def lock_release (lk : LockSt) (curthread : Tid) : RelOutcome :=
  if lock_do_i_hold lk curthread = true then
    RelOutcome.ok { free := true, curr_user := none } 1
  else RelOutcome.fatal

/-- Global state for runs of lock_acquire / lock_release by any number of
threads on one lock: the lock fields plus, for each thread, whether it is
asleep on the lock's wait channel. The guard spinlock lock_lock is held only
inside the atomic steps below (each step is a region of code executed with
the guard continuously held), so it does not appear in the between-step
state. -/
structure Sys where
  lk : LockSt
  asleep : Tid → Bool

/-- State after thread t runs synch.c lines 203-208 on a busy lock: the while
test at line 205 succeeds and wchan_sleep (line 208) puts t to sleep,
atomically releasing the guard. -/
def sleepOnLock (s : Sys) (t : Tid) : Sys :=
  ⟨s.lk, fun u => if u = t then true else s.asleep u⟩

/-- One atomic step of the lock code, atomic because the guard spinlock is
held across it.
acquire_free: synch.c lines 203-214 when the while test at 205 fails at once
(lock observed free): curr_user := t, free := false.
acquire_busy: lines 203-208, the while test succeeds and the caller sleeps.
release: lines 223-229; the KASSERT at 224 means this step exists only for a
caller that holds the lock, and the wchan_wakeone at 228 wakes at most one
sleeper w. A sleeping thread executes no code, so every step requires its
actor to be awake; a woken thread re-runs the while test at line 205, which
is a new acquire_free or acquire_busy step. -/
inductive Step : Sys → Sys → Prop where
  | acquire_free (s : Sys) (t : Tid) :
      s.asleep t = false → s.lk.free = true →
      Step s ⟨⟨false, some t⟩, s.asleep⟩
  | acquire_busy (s : Sys) (t : Tid) :
      s.asleep t = false → s.lk.free = false →
      Step s (sleepOnLock s t)
  | release (s : Sys) (t : Tid) (w : Option Tid) :
      s.asleep t = false → lock_do_i_hold s.lk t = true →
      (∀ u, w = some u → s.asleep u = true) →
      Step s ⟨⟨true, none⟩, wchan_wakeone s.asleep w⟩

/-- The state just after lock_create: lock free, no owner, nobody asleep. -/
def initSys : Sys := ⟨lock_create_state, fun _ => false⟩

/-- States reachable from s0 by steps of the lock operations. -/
inductive ReachFrom (s0 : Sys) : Sys → Prop where
  | refl : ReachFrom s0 s0
  | step {s1 s2 : Sys} : ReachFrom s0 s1 → Step s1 s2 → ReachFrom s0 s2

/-- States reachable from a freshly created lock. -/
abbrev Reach : Sys → Prop := ReachFrom initSys

/-- A thread t asleep on the wait channel of a lock it itself owns. -/
def SelfStuck (s : Sys) (t : Tid) : Prop :=
  s.asleep t = true ∧ s.lk.free = false ∧ s.lk.curr_user = some t

/-- Outcome of a destroy call: fatal assertion, or completion having released
the listed resources. -/
inductive DestroyOutcome where
  | fatal
  | ok (freed : List Res)

/-- Modelled from the spec: wchan_destroy is implemented outside this
repository (wchan.c is not among the sources; synch.c line 81 notes
"wchan_cleanup will assert if anyone's waiting on it"). Per the spec's
external-interface section, wchan destroy is fatal if any thread is currently
asleep on the channel. The argument is the number of threads asleep on the
channel at the time of the call; the call succeeds exactly when it is zero. -/
def wchan_destroy_ok (sleepers : Nat) : Bool := sleepers == 0

/-- sem_destroy (synch.c lines 76-86): spinlock_cleanup, then wchan_destroy
(fatal if any sleeper remains), then kfree(sem_name) and kfree(sem). -/
def sem_destroy (sleepers : Nat) : DestroyOutcome :=
  if wchan_destroy_ok sleepers then
    DestroyOutcome.ok [Res.wchan, Res.name, Res.obj]
  else DestroyOutcome.fatal

/-- lock_destroy (synch.c lines 175-193): KASSERT(lock->free == true) and
KASSERT(lock->curr_user == NULL) at lines 182-183, before any resource is
released; then spinlock_cleanup, wchan_destroy (fatal if any sleeper),
kfree(lk_name), kfree(lock). -/
def lock_destroy (lk : LockSt) (sleepers : Nat) : DestroyOutcome :=
  if lk.free = true then
    if lk.curr_user = none then
      if wchan_destroy_ok sleepers then
        DestroyOutcome.ok [Res.wchan, Res.name, Res.obj]
      else DestroyOutcome.fatal
    else DestroyOutcome.fatal
  else DestroyOutcome.fatal

/-- cv_destroy (synch.c lines 283-295): wchan_destroy first (fatal if any
sleeper), then spinlock_cleanup, kfree(cv_name), kfree(cv). -/
def cv_destroy (sleepers : Nat) : DestroyOutcome :=
  if wchan_destroy_ok sleepers then
    DestroyOutcome.ok [Res.wchan, Res.name, Res.obj]
  else DestroyOutcome.fatal

/-- Counting state of one semaphore: sem_count together with how many P and V
calls have completed. sem_count is unsigned in the source and cannot
represent a negative value, so we model it as an integer to make
non-underflow a provable property rather than a typing artifact. -/
structure SemSys where
  count : Int
  doneP : Nat
  doneV : Nat

/-- Completed operations on one semaphore, each atomic because the guard
spinlock sem_lock is held across it.
v: synch.c lines 128-134, increments sem_count and calls wchan_wakeone.
p: lines 102-120; a P call completes only after the while test at line 103
has seen sem_count nonzero (KASSERT at 118 re-checks it is positive) and then
decrements it at line 119. -/
inductive SemStep : SemSys → SemSys → Prop where
  | v (s : SemSys) : SemStep s ⟨s.count + 1, s.doneP, s.doneV + 1⟩
  | p (s : SemSys) : 0 < s.count → SemStep s ⟨s.count - 1, s.doneP + 1, s.doneV⟩

/-- The state of a semaphore fresh from sem_create(name, initial_count)
(synch.c line 71): count = initial_count, no completed operations. -/
def semInit (initial_count : Nat) : SemSys := ⟨(initial_count : Int), 0, 0⟩

/-- Semaphore states reachable by completed P / V operations from the created
state. -/
inductive SemReach (initial_count : Nat) : SemSys → Prop where
  | init : SemReach initial_count (semInit initial_count)
  | step {s1 s2 : SemSys} :
      SemReach initial_count s1 → SemStep s1 s2 → SemReach initial_count s2

/-- The while loop of P (synch.c lines 102-120), as a function of the
successive values of sem_count the caller observes while holding the guard:
the head of the list is the value seen right after spinlock_acquire at line
102, each later element the value seen after one wchan_sleep (line 116)
returns. A zero observation puts the caller back to sleep; the first nonzero
observation c passes KASSERT(c > 0) and is decremented to c - 1 (line 119),
and the call returns the pair (observed value, final count). none means
every observation so far was zero and the caller is still asleep. -/
def P_loop : List Nat → Option (Nat × Nat)
  | [] => none
  | c :: rest => if c = 0 then P_loop rest else some (c, c - 1)

/-- Externally visible actions of the synch.c functions, in program order. -/
inductive Ev where
  | assertNotNull
  | assertNotInterrupt
  | assertHoldsLock
  | assertCountPos
  | spinAcquire
  | spinRelease
  | wchanSleep
  | wchanWakeone
  | incCount
  | decCount
  | setCurrUser
  | setNotFree
  | callLockRelease
  | callLockAcquire

/-- Events that can suspend the calling thread: wchan_sleep, and a call to
lock_acquire (which may sleep inside). A lock_release call cannot block. -/
def canSleep : Ev → Bool
  | Ev.wchanSleep => true
  | Ev.callLockAcquire => true
  | _ => false

/-- The KASSERT events. -/
def isAssert : Ev → Bool
  | Ev.assertNotNull => true
  | Ev.assertNotInterrupt => true
  | Ev.assertHoldsLock => true
  | Ev.assertCountPos => true
  | _ => false

/-- Trace of P (synch.c lines 88-121) for a call that sleeps k times:
KASSERT(sem != NULL) at 91, KASSERT(curthread->t_in_interrupt == false) at
99, spinlock_acquire at 102, k sleeps at 116, KASSERT(sem_count > 0) at 118,
decrement at 119, spinlock_release at 120. -/
def P_trace (k : Nat) : List Ev :=
  [Ev.assertNotNull, Ev.assertNotInterrupt, Ev.spinAcquire] ++
    (List.replicate k Ev.wchanSleep ++
      [Ev.assertCountPos, Ev.decCount, Ev.spinRelease])

/-- Trace of V (synch.c lines 123-135): KASSERT at 126, spinlock_acquire at
128, increment at 130, KASSERT(sem_count > 0) at 131, wchan_wakeone at 132,
spinlock_release at 134. -/
def V_trace : List Ev :=
  [Ev.assertNotNull, Ev.spinAcquire, Ev.incCount, Ev.assertCountPos,
    Ev.wchanWakeone, Ev.spinRelease]

/-- Trace of lock_acquire (synch.c lines 195-216) for a call that sleeps k
times: KASSERT(lock != NULL) at 200, KASSERT(curthread->t_in_interrupt ==
false) at 201, spinlock_acquire at 203, k sleeps at 208, curr_user := t at
212, free := false at 213, spinlock_release at 214. -/
def lock_acquire_trace (k : Nat) : List Ev :=
  [Ev.assertNotNull, Ev.assertNotInterrupt, Ev.spinAcquire] ++
    (List.replicate k Ev.wchanSleep ++
      [Ev.setCurrUser, Ev.setNotFree, Ev.spinRelease])

/-- Trace of cv_wait (synch.c lines 297-318): KASSERT(cv != NULL) at 300,
KASSERT(lock != NULL) at 301, KASSERT(lock_do_i_hold(lock) == true) at 302,
spinlock_acquire on the cv guard at 308, lock_release at 310, wchan_sleep on
the cv channel at 312, spinlock_release at 313, lock_acquire at 314. -/
def cv_wait_trace : List Ev :=
  [Ev.assertNotNull, Ev.assertNotNull, Ev.assertHoldsLock, Ev.spinAcquire,
    Ev.callLockRelease, Ev.wchanSleep, Ev.spinRelease, Ev.callLockAcquire]

/-- Checks that every mutation of sem_count (incCount / decCount) in a trace
happens while the guard spinlock is held, tracking the spinlock hold depth.
wchan_sleep atomically releases the guard for the duration of the suspension
and reacquires it before returning, and the sleeping thread mutates nothing
meanwhile, so the sleep event is depth neutral for its own thread's trace. -/
def mutationsGuarded : List Ev → Nat → Bool
  | [], _ => true
  | Ev.spinAcquire :: l, d => mutationsGuarded l (d + 1)
  | Ev.spinRelease :: l, d => mutationsGuarded l (d - 1)
  | Ev.incCount :: l, d => decide (0 < d) && mutationsGuarded l d
  | Ev.decCount :: l, d => decide (0 < d) && mutationsGuarded l d
  | _ :: l, d => mutationsGuarded l d

/- ### Helper lemmas -/

/-- Unfolding of lock_do_i_hold: it returns true exactly when the lock is
held and curr_user is the asking thread. -/
theorem do_i_hold_iff (lk : LockSt) (t : Tid) :
    lock_do_i_hold lk t = true ↔ lk.free = false ∧ lk.curr_user = some t := by
  rcases lk with ⟨f, cu⟩
  cases f <;> simp [lock_do_i_hold]

/-- A run of sleep events neither mutates the count nor changes the guard
depth of the rest of the trace. -/
theorem mutationsGuarded_replicate_sleep (k : Nat) (l : List Ev) (d : Nat) :
    mutationsGuarded (List.replicate k Ev.wchanSleep ++ l) d =
      mutationsGuarded l d := by
  induction k with
  | zero => rfl
  | succ n ih => simpa [List.replicate_succ, mutationsGuarded] using ih

/-- The ownership predicate never appears among the events of a
lock_acquire call, however many times it sleeps. -/
theorem assertHoldsLock_not_in_lock_acquire (k : Nat) :
    Ev.assertHoldsLock ∉ lock_acquire_trace k := by
  simp [lock_acquire_trace, List.mem_replicate]

/-- Once a thread is asleep on the wait channel of a lock it owns, no step of
any thread changes that: all other threads find the lock busy and can only
join it asleep, and lock_release demands ownership, which only the sleeping
thread has. -/
theorem selfStuck_step {s1 s2 : Sys} {t : Tid}
    (h : SelfStuck s1 t) (hs : Step s1 s2) : SelfStuck s2 t := by
  obtain ⟨ha, hf, hu⟩ := h
  cases hs with
  | acquire_free t2 h1 h2 =>
      rw [hf] at h2
      exact absurd h2 (by simp)
  | acquire_busy t2 h1 h2 =>
      refine ⟨?_, hf, hu⟩
      by_cases he : t = t2 <;> simp [sleepOnLock, he, ha]
  | release t2 w h1 h2 h3 =>
      obtain ⟨hf2, hu2⟩ := (do_i_hold_iff s1.lk t2).mp h2
      rw [hu] at hu2
      obtain rfl : t = t2 := Option.some.inj hu2
      rw [ha] at h1
      exact absurd h1 (by simp)

/-- SelfStuck is preserved along every reachable future. -/
theorem selfStuck_reach {s0 s2 : Sys} {t : Tid}
    (h0 : SelfStuck s0 t) (h : ReachFrom s0 s2) : SelfStuck s2 t := by
  induction h with
  | refl => exact h0
  | step h1 hs ih => exact selfStuck_step ih hs

/-- The still-asleep case of the P loop: the loop has not completed exactly
when every count value observed so far was zero. -/
theorem P_loop_none_iff (obs : List Nat) :
    P_loop obs = none ↔ obs.all (fun x => x == 0) = true := by
  induction obs with
  | nil => simp [P_loop]
  | cons c rest ih =>
      by_cases hc : c = 0 <;> simp [P_loop, hc, ih]

/-- The completed case of the P loop: the returned pair is (observed positive
count, that count minus one), and the observation list splits into an
all-zero run of sleeps followed by the positive observation. -/
theorem P_loop_some (obs : List Nat) (c cfin : Nat)
    (h : P_loop obs = some (c, cfin)) :
    0 < c ∧ cfin = c - 1 ∧
      ∃ zs rest, obs = zs ++ c :: rest ∧ zs.all (fun x => x == 0) = true := by
  induction obs with
  | nil => simp [P_loop] at h
  | cons x rest ih =>
      by_cases hx : x = 0
      · simp only [P_loop, hx, if_pos] at h
        obtain ⟨h1, h2, zs, r2, hr, hz⟩ := ih h
        exact ⟨h1, h2, 0 :: zs, r2, by simp [hr, hx], by simpa using hz⟩
      · simp only [P_loop, if_neg hx] at h
        obtain ⟨rfl, rfl⟩ := Prod.mk.injEq .. ▸ Option.some.inj h
        exact ⟨Nat.pos_of_ne_zero hx, rfl, [], rest, rfl, rfl⟩

/- ### The claims -/

/-- Claim C1 (code-bug evidence): sem_create and cv_create free exactly the
sub-resources they had allocated on every failure path, but lock_create, on
the path where kmalloc and kstrdup succeed and wchan_create fails, returns
the failure sentinel while the duplicated name string stays allocated and is
never freed — the claimed cleanup does not happen for lock_create. -/
theorem lock_create_leaks_name_on_wchan_failure :
    (∀ o n w : Bool, noLeakOnFailure (sem_create o n w) = true) ∧
    (∀ o n w : Bool, noLeakOnFailure (cv_create o n w) = true) ∧
    (lock_create true true false).result = false ∧
    Res.name ∈ (lock_create true true false).allocated ∧
    Res.name ∉ (lock_create true true false).freed ∧
    noLeakOnFailure (lock_create true true false) = false := by
  refine ⟨fun o n w => ?_, fun o n w => ?_, rfl, ?_, ?_, rfl⟩
  · cases o <;> cases n <;> cases w <;> rfl
  · cases o <;> cases n <;> cases w <;> rfl
  · exact List.mem_cons_of_mem _ (List.mem_cons_self _ _)
  · intro hmem
    have h2 : Res.name ∈ [Res.obj] := hmem
    cases h2 with
    | tail _ h => cases h

/-- Claim C2: in every state reachable by interleavings of lock_acquire and
lock_release on one lock, lock_do_i_hold is true for at most one thread —
two threads for which it holds simultaneously are the same thread. -/
theorem lock_mutual_exclusion (s : Sys) (_h : Reach s) (t1 t2 : Tid)
    (h1 : lock_do_i_hold s.lk t1 = true) (h2 : lock_do_i_hold s.lk t2 = true) :
    t1 = t2 := by
  obtain ⟨-, hu1⟩ := (do_i_hold_iff s.lk t1).mp h1
  obtain ⟨-, hu2⟩ := (do_i_hold_iff s.lk t2).mp h2
  rw [hu1] at hu2
  exact Option.some.inj hu2

theorem lock_mutual_exclusion_witness : (0 : Tid) = 0 :=
  lock_mutual_exclusion ⟨⟨false, some 0⟩, fun _ => false⟩
    (ReachFrom.step ReachFrom.refl (Step.acquire_free initSys 0 rfl rfl))
    0 0 rfl rfl

/-- Claim C3 (counterexample): cv_wait performs no interrupt-context
assertion anywhere in its body, in particular none before its wchan_sleep,
refuting the claim that every blocking operation asserts it on entry. -/
theorem cv_wait_has_no_interrupt_assert :
    Ev.assertNotInterrupt ∉ cv_wait_trace := by
  simp [cv_wait_trace]

/-- Claim C3 (amended): P and lock_acquire fatally assert on entry, before
any event that could sleep, that the caller is not in interrupt context;
cv_wait makes no such assertion in its own body — the lock_acquire it calls
runs only after the sleep. -/
theorem interrupt_assert_placement :
    (∀ k : Nat, ∃ en rest : List Ev, P_trace k = en ++ rest ∧
      Ev.assertNotInterrupt ∈ en ∧
      en.all (fun e => !canSleep e) = true) ∧
    (∀ k : Nat, ∃ en rest : List Ev, lock_acquire_trace k = en ++ rest ∧
      Ev.assertNotInterrupt ∈ en ∧
      en.all (fun e => !canSleep e) = true) ∧
    Ev.assertNotInterrupt ∉ cv_wait_trace := by
  refine ⟨fun k => ⟨[Ev.assertNotNull, Ev.assertNotInterrupt, Ev.spinAcquire],
      List.replicate k Ev.wchanSleep ++
        [Ev.assertCountPos, Ev.decCount, Ev.spinRelease],
      rfl, List.Mem.tail _ (List.Mem.head _), rfl⟩,
    fun k => ⟨[Ev.assertNotNull, Ev.assertNotInterrupt, Ev.spinAcquire],
      List.replicate k Ev.wchanSleep ++
        [Ev.setCurrUser, Ev.setNotFree, Ev.spinRelease],
      rfl, List.Mem.tail _ (List.Mem.head _), rfl⟩,
    by simp [cv_wait_trace]⟩

/-- Claim C4: a completed P observed a positive count and decremented it by
exactly one relative to that observation; every observation before it was
zero, each one putting the caller to sleep; the call stays blocked exactly
while all observations are zero; and P's last action releases the guard. -/
theorem P_semantics (obs : List Nat) (c cfin : Nat)
    (h : P_loop obs = some (c, cfin)) :
    0 < c ∧ cfin = c - 1 ∧
      (∃ zs rest2, obs = zs ++ c :: rest2 ∧ zs.all (fun x => x == 0) = true) ∧
      (∀ obs2 : List Nat,
        P_loop obs2 = none ↔ obs2.all (fun x => x == 0) = true) ∧
      (∀ k : Nat, ∃ l : List Ev, P_trace k = l ++ [Ev.spinRelease]) := by
  refine ⟨(P_loop_some obs c cfin h).1, (P_loop_some obs c cfin h).2.1,
    (P_loop_some obs c cfin h).2.2, P_loop_none_iff, fun k => ?_⟩
  refine ⟨[Ev.assertNotNull, Ev.assertNotInterrupt, Ev.spinAcquire] ++
    (List.replicate k Ev.wchanSleep ++ [Ev.assertCountPos, Ev.decCount]), ?_⟩
  simp [P_trace]

theorem P_semantics_witness :
    0 < 2 ∧ 1 = 2 - 1 ∧
      (∃ zs rest2, [0, 2] = zs ++ 2 :: rest2 ∧
        zs.all (fun x => x == 0) = true) ∧
      (∀ obs2 : List Nat,
        P_loop obs2 = none ↔ obs2.all (fun x => x == 0) = true) ∧
      (∀ k : Nat, ∃ l : List Ev, P_trace k = l ++ [Ev.spinRelease]) :=
  P_semantics [0, 2] 2 1 rfl

/-- Claim C5: in every reachable state of the lock system, free is true
exactly when curr_user is none; lock_create establishes free = true and
curr_user = NULL; and whenever the lock is held, lock_do_i_hold singles out
curr_user as the one thread it answers true for — the thread permitted to
pass lock_release's assertion. -/
theorem lock_state_invariant (s : Sys) (h : Reach s) :
    (s.lk.free = true ↔ s.lk.curr_user = none) ∧
    lock_create_state.free = true ∧ lock_create_state.curr_user = none ∧
    (∀ t : Tid, lock_do_i_hold s.lk t = true ↔
      s.lk.free = false ∧ s.lk.curr_user = some t) := by
  refine ⟨?_, rfl, rfl, fun t => do_i_hold_iff s.lk t⟩
  induction h with
  | refl => simp [initSys, lock_create_state]
  | step h1 hs ih =>
      cases hs with
      | acquire_free t ha hf => simp
      | acquire_busy t ha hf => simpa [sleepOnLock] using ih
      | release t w ha hd hw => simp

theorem lock_state_invariant_witness :
    (initSys.lk.free = true ↔ initSys.lk.curr_user = none) ∧
    lock_create_state.free = true ∧ lock_create_state.curr_user = none ∧
    (∀ t : Tid, lock_do_i_hold initSys.lk t = true ↔
      initSys.lk.free = false ∧ initSys.lk.curr_user = some t) :=
  lock_state_invariant initSys ReachFrom.refl

/-- Claim C6: lock_release is fatal — never a silent no-op — whenever
lock_do_i_hold is false for the caller; when the caller does hold the lock,
it sets curr_user to none and free to true and makes exactly one
wchan_wakeone call, and wchan_wakeone wakes at most its one designated
sleeper, leaving every other thread's sleep state unchanged. -/
theorem lock_release_contract (lk : LockSt) (t : Tid) :
    (lock_do_i_hold lk t = false → lock_release lk t = RelOutcome.fatal) ∧
    (lock_do_i_hold lk t = true →
      lock_release lk t = RelOutcome.ok { free := true, curr_user := none } 1) ∧
    (∀ (a : Tid → Bool) (w : Option Tid) (u : Tid), w ≠ some u →
      wchan_wakeone a w u = a u) ∧
    (∀ (a : Tid → Bool) (u : Tid), wchan_wakeone a (some u) u = false) := by
  refine ⟨fun hf => ?_, fun ht => ?_, fun a w u hne => ?_, fun a u => ?_⟩
  · simp [lock_release, hf]
  · simp [lock_release, ht]
  · simp [wchan_wakeone, hne]
  · simp [wchan_wakeone]

theorem lock_release_contract_witness :
    lock_release { free := false, curr_user := some 0 } 0 =
      RelOutcome.ok { free := true, curr_user := none } 1 ∧
    lock_release { free := true, curr_user := none } 5 = RelOutcome.fatal ∧
    wchan_wakeone (fun _ => true) (some 0) 0 = false ∧
    wchan_wakeone (fun _ => true) (some 0) 1 = true :=
  ⟨(lock_release_contract ⟨false, some 0⟩ 0).2.1 rfl,
   (lock_release_contract ⟨true, none⟩ 5).1 rfl,
   (lock_release_contract ⟨true, none⟩ 5).2.2.2 (fun _ => true) 0,
   (lock_release_contract ⟨true, none⟩ 5).2.2.1 (fun _ => true) (some 0) 1
     (by decide)⟩

/-- Claim C7: destroying any of the three primitives while a thread is asleep
on its wait channel is fatal and never a silent success, and lock_destroy is
fatal whenever the lock is held or records an owner — in both cases before
any resource is released (a fatal outcome frees nothing). -/
theorem destroy_with_sleeper_fatal (lk : LockSt) (n : Nat) (hn : 0 < n) :
    sem_destroy n = DestroyOutcome.fatal ∧
    lock_destroy lk n = DestroyOutcome.fatal ∧
    cv_destroy n = DestroyOutcome.fatal ∧
    (∀ (lk2 : LockSt) (m : Nat), lk2.free = false ∨ lk2.curr_user ≠ none →
      lock_destroy lk2 m = DestroyOutcome.fatal) := by
  have hw : wchan_destroy_ok n = false := by
    simp [wchan_destroy_ok]
    omega
  refine ⟨by simp [sem_destroy, hw], ?_, by simp [cv_destroy, hw], ?_⟩
  · rcases lk with ⟨f, cu⟩
    cases f
    · rfl
    · cases cu
      · simp [lock_destroy, hw]
      · rfl
  · intro lk2 m hbad
    rcases lk2 with ⟨f, cu⟩
    cases f
    · rfl
    · cases cu
      · simp at hbad
      · rfl

theorem destroy_with_sleeper_fatal_witness :
    sem_destroy 1 = DestroyOutcome.fatal ∧
    lock_destroy { free := false, curr_user := some 0 } 1 =
      DestroyOutcome.fatal ∧
    cv_destroy 1 = DestroyOutcome.fatal ∧
    (∀ (lk2 : LockSt) (m : Nat), lk2.free = false ∨ lk2.curr_user ≠ none →
      lock_destroy lk2 m = DestroyOutcome.fatal) :=
  destroy_with_sleeper_fatal ⟨false, some 0⟩ 1 (by decide)

/-- Claim C8: the non-assertion actions of cv_wait are exactly: acquire the
cv guard, release the lock, sleep on the cv wait channel (the atomic
release-guard-and-block primitive), release the cv guard, reacquire the
lock; the reacquire is cv_wait's last action; and any step of the lock
system that leaves thread t recorded as curr_user leaves lock_do_i_hold true
for t — the reacquiring caller returns from cv_wait holding the lock. -/
theorem cv_wait_protocol_holds :
    cv_wait_trace.filter (fun e => !isAssert e) =
      [Ev.spinAcquire, Ev.callLockRelease, Ev.wchanSleep, Ev.spinRelease,
        Ev.callLockAcquire] ∧
    cv_wait_trace.getLast? = some Ev.callLockAcquire ∧
    (∀ (s1 s2 : Sys) (t : Tid), Step s1 s2 → s2.lk.curr_user = some t →
      lock_do_i_hold s2.lk t = true) := by
  refine ⟨rfl, rfl, fun s1 s2 t hs hu => ?_⟩
  cases hs with
  | acquire_free t2 ha hf =>
      obtain rfl : t2 = t := Option.some.inj hu
      simp [lock_do_i_hold]
  | acquire_busy t2 ha hf =>
      exact (do_i_hold_iff (sleepOnLock s1 t2).lk t).mpr ⟨hf, hu⟩
  | release t2 w ha hd hw =>
      exact Option.noConfusion hu

theorem cv_wait_protocol_holds_witness :
    lock_do_i_hold (⟨⟨false, some 0⟩, fun _ => false⟩ : Sys).lk 0 = true :=
  cv_wait_protocol_holds.2.2 initSys ⟨⟨false, some 0⟩, fun _ => false⟩ 0
    (Step.acquire_free initSys 0 rfl rfl) rfl

/-- Claim C9: over every sequence of completed P and V operations on one
semaphore, sem_count never drops below zero; count plus completed P calls
always equals initial_count plus completed V calls, so the completed P calls
never exceed initial_count plus completed V calls; and in both P and V every
mutation of sem_count happens while the guard spinlock is held. -/
theorem sem_counting_invariant (initial_count : Nat) (s : SemSys)
    (h : SemReach initial_count s) :
    0 ≤ s.count ∧
    s.count + s.doneP = initial_count + s.doneV ∧
    s.doneP ≤ initial_count + s.doneV ∧
    (∀ k : Nat, mutationsGuarded (P_trace k) 0 = true) ∧
    mutationsGuarded V_trace 0 = true := by
  have hmain : 0 ≤ s.count ∧
      s.count + s.doneP = initial_count + s.doneV := by
    induction h with
    | init => simp [semInit]
    | step h1 hs ih =>
        obtain ⟨i1, i2⟩ := ih
        cases hs with
        | v =>
            dsimp only at *
            constructor <;> push_cast at * <;> omega
        | p hpos =>
            dsimp only at *
            constructor <;> push_cast at * <;> omega
  refine ⟨hmain.1, hmain.2, ?_, fun k => ?_, rfl⟩
  · have h1 := hmain.1
    have h2 := hmain.2
    omega
  · simp [P_trace, mutationsGuarded, mutationsGuarded_replicate_sleep]

theorem sem_counting_invariant_witness :
    0 ≤ (⟨0, 1, 0⟩ : SemSys).count ∧
    (⟨0, 1, 0⟩ : SemSys).count + (⟨0, 1, 0⟩ : SemSys).doneP =
      (1 : Nat) + (⟨0, 1, 0⟩ : SemSys).doneV ∧
    (⟨0, 1, 0⟩ : SemSys).doneP ≤ 1 + (⟨0, 1, 0⟩ : SemSys).doneV ∧
    (∀ k : Nat, mutationsGuarded (P_trace k) 0 = true) ∧
    mutationsGuarded V_trace 0 = true :=
  sem_counting_invariant 1 ⟨0, 1, 0⟩
    (SemReach.step SemReach.init (SemStep.p (semInit 1) (by decide)))

/-- Claim C10: a thread that already owns the lock and calls lock_acquire
again passes the entry assertions — lock_acquire never asserts ownership —
finds free == false, and goes to sleep on the lock's wait channel; from that
state, no continuation by any set of threads ever wakes it, because waking
requires a lock_release whose assertion only the sleeping owner could pass:
a silent self-deadlock rather than a detected error. -/
theorem reacquire_self_deadlock (s : Sys) (t : Tid)
    (hAwake : s.asleep t = false) (hOwn : lock_do_i_hold s.lk t = true) :
    (∀ k : Nat, Ev.assertHoldsLock ∉ lock_acquire_trace k) ∧
    Step s (sleepOnLock s t) ∧
    (sleepOnLock s t).asleep t = true ∧
    (∀ s2 : Sys, ReachFrom (sleepOnLock s t) s2 → s2.asleep t = true) := by
  obtain ⟨hf, hu⟩ := (do_i_hold_iff s.lk t).mp hOwn
  have hstuck : SelfStuck (sleepOnLock s t) t := ⟨by simp [sleepOnLock], hf, hu⟩
  exact ⟨assertHoldsLock_not_in_lock_acquire,
    Step.acquire_busy s t hAwake hf,
    hstuck.1,
    fun s2 hr => (selfStuck_reach hstuck hr).1⟩

theorem reacquire_self_deadlock_witness :
    (∀ k : Nat, Ev.assertHoldsLock ∉ lock_acquire_trace k) ∧
    Step ⟨⟨false, some 0⟩, fun _ => false⟩
      (sleepOnLock ⟨⟨false, some 0⟩, fun _ => false⟩ 0) ∧
    (sleepOnLock ⟨⟨false, some 0⟩, fun _ => false⟩ 0).asleep 0 = true ∧
    (∀ s2 : Sys,
      ReachFrom (sleepOnLock ⟨⟨false, some 0⟩, fun _ => false⟩ 0) s2 →
        s2.asleep 0 = true) :=
  reacquire_self_deadlock ⟨⟨false, some 0⟩, fun _ => false⟩ 0 rfl rfl

end Synch
